import Mathlib

/-!
Shallow embedding of the eye-openness / awakeness checking core of the
Very-Simple-Alarm repository (face_recog package), together with proofs of
the specified properties.

Source files embedded:
  - face_recog/eye_awareness_analyzer.py  (EyeAwakenessAnalyzer)
  - face_recog/awakeness_checker.py       (AwakenessChecker)
  - face_recog/mtcnn_face_detector.py     (MTCNNFaceDetector.detect_face)
  - face_recog/calibrate_threshold.py     (calibrate_brightness_threshold)

Modelling conventions:
  - Python exceptions are modelled with Except; each distinct raise site is a
    distinct error constructor.
  - Pixel values are Nat (conceptually 0..255), brightness values are exact
    rationals. Python float arithmetic is modelled by exact rational
    arithmetic, and the per-pixel uint8 rounding that cv2.cvtColor performs
    during RGB-to-gray conversion is abstracted to the exact luma-weighted
    value; no claim below depends on a particular luma value, only on the
    brightness result as a plain number.
  - A numpy array that is 2-D (grayscale) or 3-D (channelled) is modelled by
    the Buffer structure; channels = 0 encodes a 2-D array, channels = k > 0
    a 3-D array with k channels. Arrays of other dimensionality cannot be
    represented, matching the fact that the code rejects them at entry.
  - Python floor division a // 2 on ints is Int division by the positive
    literal 2, which in Lean is Euclidean and hence floor division here;
    Python int(x) on a float is truncation toward zero, modelled by truncQ.
-/

namespace VerySimpleAlarm

/-- Pixel buffer: models a numpy image or region array. The field channels
encodes the dimensionality: 0 means a 2-D (grayscale) array, k > 0 means a
3-D array with k channels. The function pix gives the pixel value at
(row, col, channel); it is only meaningful inside bounds. -/
structure Buffer where
  height : Nat
  width : Nat
  channels : Nat
  pix : Int → Int → Nat → Nat

/-- Number of scalar entries of the array, as numpy computes .size: h*w for a
2-D array, h*w*c for a 3-D array. -/
def bufSize (b : Buffer) : Nat :=
  b.height * b.width * (if b.channels = 0 then 1 else b.channels)

/-- Distinct raise sites of the analyzer and calibration code. Each
constructor corresponds to one distinct Python error message. -/
inductive Err where
  | invalidParameter
  | invalidRegion
  | emptyRegion
  | unsupportedChannels
  | invalidImage
deriving DecidableEq, Repr

/-- Truncation toward zero of a rational, mirroring Python int() applied to a
float. -/
def truncQ (q : ℚ) : ℤ :=
  if 0 ≤ q then ⌊q⌋ else -⌊-q⌋

/-- Geometry of one extraction call: x-coordinate of the eye center after the
int() cast performed by extract_eye_region. -/
def eyeX (eye_center : ℚ × ℚ) : ℤ := truncQ eye_center.1

/-- Geometry of one extraction call: y-coordinate of the eye center after the
int() cast performed by extract_eye_region. -/
def eyeY (eye_center : ℚ × ℚ) : ℤ := truncQ eye_center.2

/-- Half extent of a region dimension: Python floor division by 2. -/
def halfExtent (d : ℤ) : ℤ := d / 2

/-- Left edge of the clamped crop box, x1 = max(0, eye_x - half_width). -/
def cropX1 (image : Buffer) (eye_center : ℚ × ℚ) (region_size : ℤ × ℤ) : ℤ :=
  max 0 (eyeX eye_center - halfExtent region_size.1)

/-- Top edge of the clamped crop box, y1 = max(0, eye_y - half_height). -/
def cropY1 (image : Buffer) (eye_center : ℚ × ℚ) (region_size : ℤ × ℤ) : ℤ :=
  max 0 (eyeY eye_center - halfExtent region_size.2)

/-- Right edge of the clamped crop box, x2 = min(width, eye_x + half_width). -/
def cropX2 (image : Buffer) (eye_center : ℚ × ℚ) (region_size : ℤ × ℤ) : ℤ :=
  min (image.width : ℤ) (eyeX eye_center + halfExtent region_size.1)

/-- Bottom edge of the clamped crop box, y2 = min(height, eye_y + half_height). -/
def cropY2 (image : Buffer) (eye_center : ℚ × ℚ) (region_size : ℤ × ℤ) : ℤ :=
  min (image.height : ℤ) (eyeY eye_center + halfExtent region_size.2)

/-- Vertical offset of the cropped pixels inside the padded buffer,
pad_top = (region_height - crop_height) // 2. -/
def padTop (image : Buffer) (eye_center : ℚ × ℚ) (region_size : ℤ × ℤ) : ℤ :=
  (region_size.2 - (cropY2 image eye_center region_size - cropY1 image eye_center region_size)) / 2

/-- Horizontal offset of the cropped pixels inside the padded buffer,
pad_left = (region_width - crop_width) // 2. -/
def padLeft (image : Buffer) (eye_center : ℚ × ℚ) (region_size : ℤ × ℤ) : ℤ :=
  (region_size.1 - (cropX2 image eye_center region_size - cropX1 image eye_center region_size)) / 2

/-- EyeAwakenessAnalyzer.extract_eye_region. The crop box is clamped to the
image; a degenerate clamped box raises the invalid-eye-region ValueError; a
crop smaller than the requested size is placed centered inside a zero
buffer of exactly the requested size. The shape validation (2-D or 3-D) at
the top of the Python function is satisfied by every Buffer by construction. -/
def extract_eye_region (image : Buffer) (eye_center : ℚ × ℚ)
    (region_size : ℤ × ℤ) : Except Err Buffer :=
  let x1 := cropX1 image eye_center region_size
  let y1 := cropY1 image eye_center region_size
  let x2 := cropX2 image eye_center region_size
  let y2 := cropY2 image eye_center region_size
  if x2 ≤ x1 ∨ y2 ≤ y1 then
    .error .invalidRegion
  else
    let crop : Buffer :=
      { height := (y2 - y1).toNat
        width := (x2 - x1).toNat
        channels := image.channels
        pix := fun i j c => image.pix (y1 + i) (x1 + j) c }
    if (crop.height : ℤ) < region_size.2 ∨ (crop.width : ℤ) < region_size.1 then
      let pt := (region_size.2 - (crop.height : ℤ)) / 2
      let pl := (region_size.1 - (crop.width : ℤ)) / 2
      .ok
        { height := region_size.2.toNat
          width := region_size.1.toNat
          channels := image.channels
          pix := fun i j c =>
            if pt ≤ i ∧ i < pt + (crop.height : ℤ) ∧
               pl ≤ j ∧ j < pl + (crop.width : ℤ) then
              crop.pix (i - pt) (j - pl) c
            else 0 }
    else
      .ok crop

/-- Luma value of one pixel: the raw value for a 2-D buffer, the standard
perceptual weighting of the first three channels otherwise (an RGBA buffer
first drops alpha, which leaves the same first three channels). -/
def lumaAt (b : Buffer) (i j : ℤ) : ℚ :=
  if b.channels = 0 then (b.pix i j 0 : ℚ)
  else (299 * (b.pix i j 0 : ℚ) + 587 * (b.pix i j 1 : ℚ) + 114 * (b.pix i j 2 : ℚ)) / 1000

/-- Sum of the luma values of all pixels of the buffer. -/
def sumLuma (b : Buffer) : ℚ :=
  Finset.sum (Finset.range b.height) fun i =>
    Finset.sum (Finset.range b.width) fun j => lumaAt b (i : ℤ) (j : ℤ)

/-- EyeAwakenessAnalyzer.calculate_eye_brightness: raises on an empty region,
raises on a 3-D region whose channel count is neither 3 nor 4, otherwise
returns the mean luma of the region. -/
def calculate_eye_brightness (eye_region : Buffer) : Except Err ℚ :=
  if bufSize eye_region = 0 then .error .emptyRegion
  else if eye_region.channels ≠ 0 ∧ eye_region.channels ≠ 3 ∧ eye_region.channels ≠ 4 then
    .error .unsupportedChannels
  else .ok (sumLuma eye_region / ((eye_region.height : ℚ) * (eye_region.width : ℚ)))

/-- EyeAwakenessAnalyzer.is_eye_open: brightness strictly above the threshold
means open; any failure while computing brightness is swallowed and treated
as closed. -/
def is_eye_open (brightness_threshold : ℚ) (eye_region : Buffer) : Bool :=
  match calculate_eye_brightness eye_region with
  | .ok b => decide (b > brightness_threshold)
  | .error _ => false

/-- EyeAwakenessAnalyzer.set_eye_region_size: eagerly rejects non-positive
size components with the eye-region-size-must-be-positive ValueError and
otherwise installs the new size. -/
def set_eye_region_size (new_size : ℤ × ℤ) : Except Err (ℤ × ℤ) :=
  if new_size.1 ≤ 0 ∨ new_size.2 ≤ 0 then .error .invalidParameter
  else .ok new_size

/-- Verdict for a single eye inside the analyze_both_eyes result dictionary. -/
structure EyeVerdict where
  is_open : Bool
  brightness : ℚ
deriving DecidableEq, Repr

/-- Error slot of the analyze_both_eyes result: each constructor corresponds
to one of the three except branches and records the underlying fault. -/
inductive AnalysisErr where
  | leftEyeFailed (e : Err)
  | rightEyeFailed (e : Err)
  | analysisFailed (e : Err)
deriving DecidableEq, Repr

/-- Result dictionary of EyeAwakenessAnalyzer.analyze_both_eyes. -/
structure DualEyeResult where
  left_eye : EyeVerdict
  right_eye : EyeVerdict
  both_eyes_open : Bool
  analysis_successful : Bool
  error : Option AnalysisErr
deriving DecidableEq, Repr

/-- Default per-eye verdict placed in the result dictionary before any
analysis runs. -/
def defaultVerdict : EyeVerdict := { is_open := false, brightness := 0 }

/-- Extraction followed by brightness computation for one eye, the two
fallible steps of each per-eye block of analyze_both_eyes. -/
def analyzeEye (region_size : ℤ × ℤ)
    (image : Buffer) (pos : ℚ × ℚ) : Except Err ℚ := do
  let region ← extract_eye_region image pos region_size
  calculate_eye_brightness region

/-- EyeAwakenessAnalyzer.analyze_both_eyes: validates the image, analyzes the
left eye then the right eye, each inside its own try block that fills the
error slot and returns the partly filled result on failure; on success
both_eyes_open is the strict conjunction of the two per-eye verdicts. -/
def analyze_both_eyes (brightness_threshold : ℚ) (region_size : ℤ × ℤ)
    (image : Buffer) (left_eye_pos right_eye_pos : ℚ × ℚ) : DualEyeResult :=
  if bufSize image = 0 then
    { left_eye := defaultVerdict, right_eye := defaultVerdict
      both_eyes_open := false, analysis_successful := false
      error := some (.analysisFailed .invalidImage) }
  else
    match analyzeEye region_size image left_eye_pos with
    | .error e =>
      { left_eye := defaultVerdict, right_eye := defaultVerdict
        both_eyes_open := false, analysis_successful := false
        error := some (.leftEyeFailed e) }
    | .ok lb =>
      let lv : EyeVerdict := { is_open := decide (lb > brightness_threshold), brightness := lb }
      match analyzeEye region_size image right_eye_pos with
      | .error e =>
        { left_eye := lv, right_eye := defaultVerdict
          both_eyes_open := false, analysis_successful := false
          error := some (.rightEyeFailed e) }
      | .ok rb =>
        let rv : EyeVerdict := { is_open := decide (rb > brightness_threshold), brightness := rb }
        { left_eye := lv, right_eye := rv
          both_eyes_open := lv.is_open && rv.is_open
          analysis_successful := true
          error := none }

/-- Five named facial landmarks as the detector backend reports them for one
detection. -/
structure Landmarks where
  left_eye : ℚ × ℚ
  right_eye : ℚ × ℚ
  nose : ℚ × ℚ
  mouth_left : ℚ × ℚ
  mouth_right : ℚ × ℚ
deriving DecidableEq, Repr

/-- Keypoints dictionary as consumed by is_awake. Each entry is optional,
modelling the defensive KeyError handling in AwakenessChecker.is_awake:
a missing key makes the per-frame check return false. detect_face always
fills every entry when it produces keypoints at all. -/
structure KeypointMap where
  left_eye : Option (ℚ × ℚ)
  right_eye : Option (ℚ × ℚ)
  nose : Option (ℚ × ℚ)
  mouth_left : Option (ℚ × ℚ)
  mouth_right : Option (ℚ × ℚ)
deriving DecidableEq, Repr

/-- Error slot of the detect_face result dictionary; the two ambiguity
constructors carry the information of the two distinct error messages. -/
inductive DetectErr where
  | noFaceDetected
  | multipleFacesDetected (n : Nat)
deriving DecidableEq, Repr

/-- Result dictionary of MTCNNFaceDetector.detect_face. -/
structure FaceResult where
  bounding_box : Option (ℤ × ℤ × ℤ × ℤ)
  confidence : Option ℚ
  keypoints : Option KeypointMap
  error : Option DetectErr
  success : Bool
deriving DecidableEq, Repr

/-- One raw detection as the backend reports it: a bounding box in
(x1, y1, x2, y2) corner form, an optional confidence, and optional
landmarks. The backend delivers box corners as floats that detect_face
rounds to ints; the rounding happens at this model boundary since no claim
concerns box coordinates. -/
structure Detection where
  box : ℤ × ℤ × ℤ × ℤ
  prob : Option ℚ
  landmarks : Option Landmarks
deriving DecidableEq, Repr

/-- Keypoints dictionary built by detect_face from backend landmarks: all
five entries present. -/
def keypointsOfLandmarks (lm : Landmarks) : KeypointMap :=
  { left_eye := some lm.left_eye
    right_eye := some lm.right_eye
    nose := some lm.nose
    mouth_left := some lm.mouth_left
    mouth_right := some lm.mouth_right }

/-- MTCNNFaceDetector.detect_face, modelled over the detection list the
backend reports for the frame (none models the facenet backend returning a
null box array; the tensorflow backend always reports a list and its
zero/one/many handling is the same). Zero detections and two or more
detections both produce success = false with the corresponding error; a
single detection produces success = true with the box converted to
(x, y, width, height) form and the keypoints dictionary filled from the
landmarks when present. -/
def detect_face (detections : Option (List Detection)) : FaceResult :=
  let base : FaceResult :=
    { bounding_box := none, confidence := none, keypoints := none
      error := none, success := false }
  match detections with
  | none => { base with error := some .noFaceDetected }
  | some dets =>
    match dets with
    | [] => { base with error := some .noFaceDetected }
    | [d] =>
      { bounding_box := some (d.box.1, d.box.2.1, d.box.2.2.1 - d.box.1, d.box.2.2.2 - d.box.2.1)
        confidence := d.prob
        keypoints := d.landmarks.map keypointsOfLandmarks
        error := none
        success := true }
    | _ :: _ :: _ => { base with error := some (.multipleFacesDetected dets.length) }

/-- AwakenessChecker.is_awake, for an array-valued frame (the file-path
branch only performs image loading, which is I/O outside the core). The
face detection result is the value of the external detector call on this
frame. Every fault converts to false: unsuccessful detection, empty image,
absent keypoints dictionary, missing eye entries, or unsuccessful eye
analysis; on success the verdict is the conjunction of the two per-eye
verdicts. -/
def is_awake (brightness_threshold : ℚ) (region_size : ℤ × ℤ)
    (face_result : FaceResult) (image : Buffer) : Bool :=
  if !face_result.success then false
  else if bufSize image = 0 then false
  else
    match face_result.keypoints with
    | none => false
    | some kp =>
      match kp.left_eye, kp.right_eye with
      | some lp, some rp =>
        let r := analyze_both_eyes brightness_threshold region_size image lp rp
        if !r.analysis_successful then false
        else r.left_eye.is_open && r.right_eye.is_open
      | _, _ => false

/-- Per-frame counter update of AwakenessChecker.check_video_stream: an awake
frame increments the consecutive counter, any other frame resets it to 0. -/
def updateCount (count : Nat) (awake : Bool) : Nat :=
  if awake then count + 1 else 0

/-- Frame loop of AwakenessChecker.check_video_stream, abstracted over the
sequence of per-frame awakeness verdicts (each produced by is_awake on the
captured frame). After each update the loop returns true as soon as the
counter reaches the required count; if the verdicts run out (user quits or
the camera fails) it returns false. The returned pair is (verdict, final
counter value). -/
def runStream (required : Nat) : Nat → List Bool → Bool × Nat
  | count, [] => (false, count)
  | count, v :: rest =>
    let c := updateCount count v
    if required ≤ c then (true, c) else runStream required c rest

/-- AwakenessChecker.check_video_stream on a verdict sequence: the
consecutive counter is reset to 0 at the start of the session. -/
def check_video_stream (required : Nat) (verdicts : List Bool) : Bool × Nat :=
  runStream required 0 verdicts

/-- Arithmetic mean of a list of rationals, as statistics.mean computes it
(exact rational arithmetic models the float computation). -/
def listMean (l : List ℚ) : ℚ := l.sum / (l.length : ℚ)

/-- Calibration failure: the RuntimeError raised when either sample set has
fewer than 5 values, carrying the two observed counts. -/
inductive CalErr where
  | insufficientData (nopen nclosed : Nat)
deriving DecidableEq, Repr

/-- Persisted configuration state written by _save_threshold_config. -/
structure Config where
  threshold : ℤ
  open_avg : ℚ
  closed_avg : ℚ
  separation : ℚ
deriving DecidableEq, Repr

/-- Qualitative separation label printed by the calibration report. -/
def separationQuality (separation : ℚ) : String :=
  if separation > 50 then "excellent"
  else if separation > 30 then "good"
  else if separation > 15 then "moderate"
  else "poor"

/-- Statistics and persistence phase of calibrate_brightness_threshold,
starting after the two capture phases delivered the open and closed sample
lists. Fails with the insufficient-data RuntimeError when either list has
fewer than 5 values; otherwise the threshold is the midpoint of the two
means minus the safety margin 5, truncated by int() and clamped into
[30, 200], and the configuration is assembled for saving. The sample
standard deviations computed in the source feed only the printed report and
are omitted. -/
def calibrate_brightness_threshold (openSamples closedSamples : List ℚ) :
    Except CalErr Config :=
  if openSamples.length < 5 ∨ closedSamples.length < 5 then
    .error (.insufficientData openSamples.length closedSamples.length)
  else
    let open_avg := listMean openSamples
    let closed_avg := listMean closedSamples
    let recommended := (open_avg + closed_avg) / 2
    let strict := truncQ (recommended - 5)
    let strictClamped := max 30 (min 200 strict)
    .ok
      { threshold := strictClamped
        open_avg := open_avg
        closed_avg := closed_avg
        separation := open_avg - closed_avg }

/-- Persisted configuration after one calibration run: _save_threshold_config
runs only on the success path, so a failed run leaves the previously
committed configuration untouched. -/
def persistedAfterCalibration (previous : Option Config)
    (openSamples closedSamples : List ℚ) : Option Config :=
  match calibrate_brightness_threshold openSamples closedSamples with
  | .ok cfg => some cfg
  | .error _ => previous

/-! Concrete fixtures used to instantiate the universally quantified
theorems below on explicit inputs. -/

/-- Empty grayscale image (zero-by-zero array). -/
def emptyBuf : Buffer := { height := 0, width := 0, channels := 0, pix := fun _ _ _ => 0 }

/-- Ten-by-ten grayscale image of constant value 7. -/
def grayBuf : Buffer := { height := 10, width := 10, channels := 0, pix := fun _ _ _ => 7 }

/-- Hundred-by-hundred grayscale image of constant value 200. -/
def bigBuf : Buffer := { height := 100, width := 100, channels := 0, pix := fun _ _ _ => 200 }

/-- Nonempty 3-D region with five channels, which calculate_eye_brightness
rejects as unsupported. -/
def fiveChanBuf : Buffer := { height := 2, width := 2, channels := 5, pix := fun _ _ _ => 1 }

/-- Detection result for a frame where the detector reported no face. -/
def frNoFace : FaceResult := detect_face (some [])

/-- Keypoints dictionary whose eye entries are missing. -/
def kpNoEyes : KeypointMap :=
  { left_eye := none, right_eye := none, nose := some (0, 0)
    mouth_left := some (0, 0), mouth_right := some (0, 0) }

/-- Successful detection result whose keypoints dictionary is absent. -/
def frNoKeypoints : FaceResult :=
  { bounding_box := some (0, 0, 1, 1), confidence := some 1, keypoints := none
    error := none, success := true }

/-- Keypoints dictionary placing both eyes far outside any small frame. -/
def kpFar : KeypointMap :=
  { left_eye := some (1000, 1000), right_eye := some (1000, 1000)
    nose := some (0, 0), mouth_left := some (0, 0), mouth_right := some (0, 0) }

/-- Successful detection result whose keypoints place both eyes far outside
any small frame, so that eye analysis fails. -/
def frFarEyes : FaceResult :=
  { bounding_box := some (0, 0, 1, 1), confidence := some 1
    keypoints := some kpFar, error := none, success := true }

/-- Sample backend detection used to build concrete detection lists. -/
def sampleDetection : Detection := { box := (0, 0, 10, 10), prob := some 1, landmarks := none }

/-- Dimensions (height, width) of the buffer produced by an extraction call,
when it succeeded. -/
def extractDims (x : Except Err Buffer) : Option (Nat × Nat) :=
  x.toOption.map fun r => (r.height, r.width)

/-- Buffer that extract_eye_region returns on bigBuf for an interior center
(50, 50) with region size (30, 20): the pure 20-by-30 crop at offset
(40, 35). -/
def extractedBig : Buffer :=
  { height := 20, width := 30, channels := 0
    pix := fun i j c => bigBuf.pix (40 + i) (35 + j) c }

/-! Helper lemmas shared by the claim theorems. -/

/-- Case analysis of analyze_both_eyes along its four exit paths: empty
image, left-eye failure, right-eye failure, and success. -/
theorem analyze_both_eyes_cases (t : ℚ) (sz : ℤ × ℤ) (img : Buffer) (lp rp : ℚ × ℚ) :
    (bufSize img = 0 ∧
      analyze_both_eyes t sz img lp rp =
        { left_eye := defaultVerdict, right_eye := defaultVerdict
          both_eyes_open := false, analysis_successful := false
          error := some (.analysisFailed .invalidImage) }) ∨
    (bufSize img ≠ 0 ∧ ∃ e, analyzeEye sz img lp = .error e ∧
      analyze_both_eyes t sz img lp rp =
        { left_eye := defaultVerdict, right_eye := defaultVerdict
          both_eyes_open := false, analysis_successful := false
          error := some (.leftEyeFailed e) }) ∨
    (bufSize img ≠ 0 ∧ ∃ lb e, analyzeEye sz img lp = .ok lb ∧
      analyzeEye sz img rp = .error e ∧
      analyze_both_eyes t sz img lp rp =
        { left_eye := { is_open := decide (lb > t), brightness := lb }
          right_eye := defaultVerdict
          both_eyes_open := false, analysis_successful := false
          error := some (.rightEyeFailed e) }) ∨
    (bufSize img ≠ 0 ∧ ∃ lb rb, analyzeEye sz img lp = .ok lb ∧
      analyzeEye sz img rp = .ok rb ∧
      analyze_both_eyes t sz img lp rp =
        { left_eye := { is_open := decide (lb > t), brightness := lb }
          right_eye := { is_open := decide (rb > t), brightness := rb }
          both_eyes_open := decide (lb > t) && decide (rb > t)
          analysis_successful := true, error := none }) := by
  by_cases h0 : bufSize img = 0
  · exact Or.inl ⟨h0, by simp [analyze_both_eyes, h0]⟩
  · cases hL : analyzeEye sz img lp with
    | error e =>
      exact Or.inr (Or.inl ⟨h0, e, rfl, by simp [analyze_both_eyes, h0, hL]⟩)
    | ok lb =>
      cases hR : analyzeEye sz img rp with
      | error e =>
        exact Or.inr (Or.inr (Or.inl ⟨h0, lb, e, rfl, rfl,
          by simp [analyze_both_eyes, h0, hL, hR]⟩))
      | ok rb =>
        exact Or.inr (Or.inr (Or.inr ⟨h0, lb, rb, rfl, rfl,
          by simp [analyze_both_eyes, h0, hL, hR]⟩))

/-- C2: for every brightness value b and threshold t, the eye-open
classification is true iff b is strictly greater than t (so b = t is
classified closed), both for is_eye_open and for the per-eye verdicts that
analyze_both_eyes produces on a successful analysis. -/
theorem claim_C2 (t : ℚ) :
    (∀ region b, calculate_eye_brightness region = .ok b →
      (is_eye_open t region = true ↔ b > t)) ∧
    (∀ sz img lp rp,
      (analyze_both_eyes t sz img lp rp).analysis_successful = true →
      ((analyze_both_eyes t sz img lp rp).left_eye.is_open = true ↔
        (analyze_both_eyes t sz img lp rp).left_eye.brightness > t) ∧
      ((analyze_both_eyes t sz img lp rp).right_eye.is_open = true ↔
        (analyze_both_eyes t sz img lp rp).right_eye.brightness > t)) := by
  constructor
  · intro region b hb
    simp [is_eye_open, hb]
  · intro sz img lp rp hs
    rcases analyze_both_eyes_cases t sz img lp rp with
      ⟨_, h⟩ | ⟨_, _, _, h⟩ | ⟨_, _, _, _, _, h⟩ | ⟨_, lb, rb, _, _, h⟩ <;>
      rw [h] at hs ⊢ <;> simp_all

/-- C2 witness: on a concrete constant-value region the classification
agrees with the strict comparison of the mean brightness against the
threshold. -/
theorem claim_C2_witness :
    (is_eye_open 5 grayBuf = true ↔ (7 : ℚ) > 5) ∧
    (is_eye_open 7 grayBuf = true ↔ (7 : ℚ) > 7) := by
  have hb : calculate_eye_brightness grayBuf = .ok 7 := by
    simp [calculate_eye_brightness, bufSize, grayBuf, sumLuma, lumaAt]
    norm_num
  exact ⟨(claim_C2 5).1 grayBuf 7 hb, (claim_C2 7).1 grayBuf 7 hb⟩

/-- C3: every analyze_both_eyes result satisfies: both_eyes_open implies
both per-eye verdicts; on a successful analysis both_eyes_open equals the
strict conjunction of the per-eye verdicts; and on an unsuccessful
analysis both_eyes_open is false and the error slot is set. -/
theorem claim_C3 (t : ℚ) (sz : ℤ × ℤ) (img : Buffer) (lp rp : ℚ × ℚ) :
    ((analyze_both_eyes t sz img lp rp).both_eyes_open = true →
      (analyze_both_eyes t sz img lp rp).left_eye.is_open = true ∧
      (analyze_both_eyes t sz img lp rp).right_eye.is_open = true) ∧
    ((analyze_both_eyes t sz img lp rp).analysis_successful = true →
      (analyze_both_eyes t sz img lp rp).both_eyes_open =
        ((analyze_both_eyes t sz img lp rp).left_eye.is_open &&
         (analyze_both_eyes t sz img lp rp).right_eye.is_open)) ∧
    ((analyze_both_eyes t sz img lp rp).analysis_successful = false →
      (analyze_both_eyes t sz img lp rp).both_eyes_open = false ∧
      (analyze_both_eyes t sz img lp rp).error ≠ none) := by
  rcases analyze_both_eyes_cases t sz img lp rp with
    ⟨_, h⟩ | ⟨_, _, _, h⟩ | ⟨_, _, _, _, _, h⟩ | ⟨_, lb, rb, _, _, h⟩ <;>
    rw [h] <;> simp

/-- C3 witness: the three component implications of the claim, discharged on
a concrete successful analysis (constant 10-by-10 image of value 7,
threshold 5, both eye centers at the image center). -/
theorem claim_C3_witness :
    ((analyze_both_eyes 5 (4, 4) grayBuf (5, 5) (5, 5)).both_eyes_open = true →
      (analyze_both_eyes 5 (4, 4) grayBuf (5, 5) (5, 5)).left_eye.is_open = true ∧
      (analyze_both_eyes 5 (4, 4) grayBuf (5, 5) (5, 5)).right_eye.is_open = true) ∧
    ((analyze_both_eyes 5 (4, 4) grayBuf (5, 5) (5, 5)).analysis_successful = true →
      (analyze_both_eyes 5 (4, 4) grayBuf (5, 5) (5, 5)).both_eyes_open =
        ((analyze_both_eyes 5 (4, 4) grayBuf (5, 5) (5, 5)).left_eye.is_open &&
         (analyze_both_eyes 5 (4, 4) grayBuf (5, 5) (5, 5)).right_eye.is_open)) ∧
    ((analyze_both_eyes 5 (4, 4) grayBuf (5, 5) (5, 5)).analysis_successful = false →
      (analyze_both_eyes 5 (4, 4) grayBuf (5, 5) (5, 5)).both_eyes_open = false ∧
      (analyze_both_eyes 5 (4, 4) grayBuf (5, 5) (5, 5)).error ≠ none) :=
  claim_C3 5 (4, 4) grayBuf (5, 5) (5, 5)

/-- C10: analyze_both_eyes evaluates the left eye first and short-circuits:
whenever left-eye extraction or brightness computation fails on a nonempty
image, the result carries the left-eye error with every other field at its
initial default, and it does not depend on the right eye position at all. -/
theorem claim_C10 (t : ℚ) (sz : ℤ × ℤ) (img : Buffer) (lp rp : ℚ × ℚ) (e : Err)
    (h0 : bufSize img ≠ 0) (hL : analyzeEye sz img lp = .error e) :
    analyze_both_eyes t sz img lp rp =
      { left_eye := defaultVerdict, right_eye := defaultVerdict
        both_eyes_open := false, analysis_successful := false
        error := some (.leftEyeFailed e) } ∧
    (∀ rp2, analyze_both_eyes t sz img lp rp = analyze_both_eyes t sz img lp rp2) := by
  constructor
  · simp [analyze_both_eyes, h0, hL]
  · intro rp2
    simp [analyze_both_eyes, h0, hL]

/-- C10 witness: a left eye far outside a concrete nonempty image makes the
extraction fail, and the result is the default record carrying the
left-eye error, independent of the right eye position. -/
theorem claim_C10_witness :
    analyze_both_eyes 5 (30, 20) grayBuf (1000, 1000) (5, 5) =
      { left_eye := defaultVerdict, right_eye := defaultVerdict
        both_eyes_open := false, analysis_successful := false
        error := some (.leftEyeFailed .invalidRegion) } ∧
    analyze_both_eyes 5 (30, 20) grayBuf (1000, 1000) (5, 5) =
      analyze_both_eyes 5 (30, 20) grayBuf (1000, 1000) (0, 0) := by
  have h0 : bufSize grayBuf ≠ 0 := by simp [bufSize, grayBuf]
  have hL : analyzeEye (30, 20) grayBuf (1000, 1000) = .error .invalidRegion := by
    have hx : cropX2 grayBuf (1000, 1000) (30, 20) ≤ cropX1 grayBuf (1000, 1000) (30, 20) := by
      simp only [cropX1, cropX2, eyeX, halfExtent, truncQ, grayBuf]
      norm_num
    simp only [analyzeEye, extract_eye_region]
    rw [if_pos (Or.inl hx)]
    rfl
  have h := claim_C10 5 (30, 20) grayBuf (1000, 1000) (5, 5) .invalidRegion h0 hL
  exact ⟨h.1, h.2 (0, 0)⟩

/-- C1: the per-frame awakeness check converts every fault to a negative
verdict. is_awake returns false whenever face detection is unsuccessful,
the keypoints dictionary is absent, an eye entry is missing from it, the
image is empty, or the eye analysis is unsuccessful; and is_eye_open
returns false (never true) whenever brightness computation fails, for
every region, the empty and malformed ones included. Both functions are
total Lean functions into Bool, so no fault propagates out of them. -/
theorem claim_C1 :
    (∀ t sz fr img, fr.success = false → is_awake t sz fr img = false) ∧
    (∀ t sz fr img, fr.keypoints = none → is_awake t sz fr img = false) ∧
    (∀ t sz fr img kp, fr.keypoints = some kp →
      (kp.left_eye = none ∨ kp.right_eye = none) → is_awake t sz fr img = false) ∧
    (∀ t sz fr img, bufSize img = 0 → is_awake t sz fr img = false) ∧
    (∀ t sz fr img kp lp rp, fr.keypoints = some kp →
      kp.left_eye = some lp → kp.right_eye = some rp →
      (analyze_both_eyes t sz img lp rp).analysis_successful = false →
      is_awake t sz fr img = false) ∧
    (∀ t region e, calculate_eye_brightness region = .error e →
      is_eye_open t region = false) := by
  refine ⟨?_, ?_, ?_, ?_, ?_, ?_⟩
  · intro t sz fr img hs
    simp [is_awake, hs]
  · intro t sz fr img hk
    by_cases hs : fr.success <;> by_cases h0 : bufSize img = 0 <;>
      simp [is_awake, hs, h0, hk]
  · intro t sz fr img kp hk he
    by_cases hs : fr.success <;> by_cases h0 : bufSize img = 0 <;>
      rcases he with he | he <;>
      cases hl : kp.left_eye <;> cases hr : kp.right_eye <;>
      simp_all [is_awake]
  · intro t sz fr img h0
    by_cases hs : fr.success <;> simp [is_awake, hs, h0]
  · intro t sz fr img kp lp rp hk hl hr ha
    by_cases hs : fr.success <;> by_cases h0 : bufSize img = 0 <;>
      simp [is_awake, hs, h0, hk, hl, hr, ha]
  · intro t region e he
    simp [is_eye_open, he]

/-- C1 witness: the faults are each exhibited on concrete inputs: an
unsuccessful detection, an absent keypoints dictionary, a keypoints
dictionary without eye entries, an empty image, eye positions on which the
analysis fails, and for is_eye_open an empty region and a five-channel
region. -/
theorem claim_C1_witness :
    is_awake 90 (30, 20) frNoFace grayBuf = false ∧
    is_awake 90 (30, 20) frNoKeypoints grayBuf = false ∧
    is_awake 90 (30, 20) { frNoKeypoints with keypoints := some kpNoEyes } grayBuf = false ∧
    is_awake 90 (30, 20) frFarEyes emptyBuf = false ∧
    is_awake 90 (30, 20) frFarEyes grayBuf = false ∧
    is_eye_open 90 emptyBuf = false ∧
    is_eye_open 90 fiveChanBuf = false := by
  have hana : (analyze_both_eyes 90 (30, 20) grayBuf (1000, 1000) (1000, 1000)).analysis_successful = false := by
    have hx : cropX2 grayBuf (1000, 1000) (30, 20) ≤ cropX1 grayBuf (1000, 1000) (30, 20) := by
      simp only [cropX1, cropX2, eyeX, halfExtent, truncQ, grayBuf]
      norm_num
    have hL : analyzeEye (30, 20) grayBuf (1000, 1000) = .error .invalidRegion := by
      simp only [analyzeEye, extract_eye_region]
      rw [if_pos (Or.inl hx)]
      rfl
    have h0 : bufSize grayBuf ≠ 0 := by simp [bufSize, grayBuf]
    simp [analyze_both_eyes, h0, hL]
  refine ⟨?_, ?_, ?_, ?_, ?_, ?_, ?_⟩
  · exact claim_C1.1 90 (30, 20) frNoFace grayBuf (by simp [frNoFace, detect_face])
  · exact claim_C1.2.1 90 (30, 20) frNoKeypoints grayBuf (by simp [frNoKeypoints])
  · exact claim_C1.2.2.1 90 (30, 20) _ grayBuf kpNoEyes (by simp) (Or.inl (by simp [kpNoEyes]))
  · exact claim_C1.2.2.2.1 90 (30, 20) frFarEyes emptyBuf (by simp [bufSize, emptyBuf])
  · exact claim_C1.2.2.2.2.1 90 (30, 20) frFarEyes grayBuf kpFar (1000, 1000) (1000, 1000)
      rfl rfl rfl hana
  · exact claim_C1.2.2.2.2.2 90 emptyBuf .emptyRegion
      (by simp [calculate_eye_brightness, bufSize, emptyBuf])
  · exact claim_C1.2.2.2.2.2 90 fiveChanBuf .unsupportedChannels
      (by simp [calculate_eye_brightness, bufSize, fiveChanBuf])

/-- C4: the consecutive-awake counter increments by one on every awake frame
and resets to zero on every non-awake frame, and the session is confirmed
exactly when the counter reaches the required count: with required = 3 the
verdict sequence true, true, true ends confirmed with counter 3, while
true, true, false, true, true never reaches the confirmed state. -/
theorem claim_C4 :
    (∀ c, updateCount c true = c + 1) ∧
    (∀ c, updateCount c false = 0) ∧
    check_video_stream 3 [true, true, true] = (true, 3) ∧
    (check_video_stream 3 [true, true, false, true, true]).1 = false := by
  refine ⟨fun c => rfl, fun c => rfl, rfl, rfl⟩

/-- C6: detect_face succeeds only when exactly one face is found. A frame
with zero reported detections and a frame with two or more reported
detections both produce success = false together with a descriptive error,
so the two failure cases block downstream eye analysis identically. -/
theorem claim_C6 :
    (∀ d : Option (List Detection), (d = none ∨ d = some []) →
      (detect_face d).success = false ∧
      (detect_face d).error = some .noFaceDetected) ∧
    (∀ dets : List Detection, 2 ≤ dets.length →
      (detect_face (some dets)).success = false ∧
      (detect_face (some dets)).error = some (.multipleFacesDetected dets.length)) := by
  constructor
  · rintro d (rfl | rfl) <;> simp [detect_face]
  · intro dets hlen
    match dets, hlen with
    | a :: b :: rest, _ => simp [detect_face]

/-- C6 witness: the zero-detection frame and a concrete two-detection frame
both yield an unsuccessful result with the corresponding error. -/
theorem claim_C6_witness :
    ((detect_face (some [])).success = false ∧
      (detect_face (some [])).error = some .noFaceDetected) ∧
    ((detect_face none).success = false ∧
      (detect_face none).error = some .noFaceDetected) ∧
    ((detect_face (some [sampleDetection, sampleDetection])).success = false ∧
      (detect_face (some [sampleDetection, sampleDetection])).error =
        some (.multipleFacesDetected 2)) :=
  ⟨claim_C6.1 (some []) (Or.inr rfl),
   claim_C6.1 none (Or.inl rfl),
   claim_C6.2 [sampleDetection, sampleDetection] (by simp)⟩

/-- C7: when either sample set has fewer than 5 values, calibration fails
with the insufficient-data RuntimeError carrying both counts, and the
persisted configuration is left exactly as it was before the run. -/
theorem claim_C7 (openSamples closedSamples : List ℚ) (previous : Option Config)
    (h : openSamples.length < 5 ∨ closedSamples.length < 5) :
    calibrate_brightness_threshold openSamples closedSamples =
      .error (.insufficientData openSamples.length closedSamples.length) ∧
    persistedAfterCalibration previous openSamples closedSamples = previous := by
  have hc : calibrate_brightness_threshold openSamples closedSamples =
      .error (.insufficientData openSamples.length closedSamples.length) := by
    simp [calibrate_brightness_threshold, h]
  exact ⟨hc, by simp [persistedAfterCalibration, hc]⟩

/-- C7 witness: a run with 3 open samples and 10 closed samples fails with
the insufficient-data error and leaves a previously committed
configuration untouched. -/
theorem claim_C7_witness :
    calibrate_brightness_threshold (List.replicate 3 (150 : ℚ)) (List.replicate 10 (60 : ℚ)) =
      .error (.insufficientData 3 10) ∧
    persistedAfterCalibration
      (some { threshold := 97, open_avg := 150, closed_avg := 60, separation := 90 })
      (List.replicate 3 (150 : ℚ)) (List.replicate 10 (60 : ℚ)) =
      some { threshold := 97, open_avg := 150, closed_avg := 60, separation := 90 } := by
  have h := claim_C7 (List.replicate 3 (150 : ℚ)) (List.replicate 10 (60 : ℚ))
    (some { threshold := 97, open_avg := 150, closed_avg := 60, separation := 90 })
    (by simp)
  simpa using h

/-- Clamping into the interval from 30 to 200 erases the difference between
Python int() truncation and the floor: for nonnegative arguments the two
agree, and for negative arguments both land below the lower clamp bound. -/
theorem clampTrunc_eq_clampFloor (q : ℚ) :
    max 30 (min 200 (truncQ q)) = max 30 (min 200 ⌊q⌋) := by
  unfold truncQ
  by_cases h0 : 0 ≤ q
  · rw [if_pos h0]
  · rw [if_neg h0]
    have hq : q < 0 := lt_of_not_ge h0
    have h1 : ⌊q⌋ ≤ 0 := Int.floor_nonpos hq.le
    have h2 : (0 : ℤ) ≤ ⌊-q⌋ := Int.floor_nonneg.mpr (by linarith)
    omega

/-- C5: for all sample sets large enough to calibrate and whose means lie in
the 0 to 255 pixel range, the applied threshold equals the floor of the
midpoint of the two means minus the safety margin 5, clamped into the
interval from 30 to 200; in particular open mean 150 and closed mean 60
give threshold exactly 100. -/
theorem claim_C5 :
    (∀ openSamples closedSamples : List ℚ,
      5 ≤ openSamples.length → 5 ≤ closedSamples.length →
      0 ≤ listMean openSamples → listMean openSamples ≤ 255 →
      0 ≤ listMean closedSamples → listMean closedSamples ≤ 255 →
      ∃ cfg, calibrate_brightness_threshold openSamples closedSamples = .ok cfg ∧
        cfg.threshold =
          max 30 (min 200 ⌊(listMean openSamples + listMean closedSamples) / 2 - 5⌋)) ∧
    (∃ cfg,
      calibrate_brightness_threshold (List.replicate 10 (150 : ℚ))
        (List.replicate 10 (60 : ℚ)) = .ok cfg ∧ cfg.threshold = 100) := by
  have main : ∀ openSamples closedSamples : List ℚ,
      5 ≤ openSamples.length → 5 ≤ closedSamples.length →
      ∃ cfg, calibrate_brightness_threshold openSamples closedSamples = .ok cfg ∧
        cfg.threshold =
          max 30 (min 200 ⌊(listMean openSamples + listMean closedSamples) / 2 - 5⌋) := by
    intro oS cS h1 h2
    have hif : ¬(oS.length < 5 ∨ cS.length < 5) := by omega
    refine ⟨{ threshold := max 30 (min 200 (truncQ ((listMean oS + listMean cS) / 2 - 5)))
              open_avg := listMean oS, closed_avg := listMean cS
              separation := listMean oS - listMean cS }, ?_, ?_⟩
    · simp only [calibrate_brightness_threshold]
      rw [if_neg hif]
    · exact clampTrunc_eq_clampFloor _
  constructor
  · intro oS cS h1 h2 _ _ _ _
    exact main oS cS h1 h2
  · obtain ⟨cfg, hc, ht⟩ :=
      main (List.replicate 10 (150 : ℚ)) (List.replicate 10 (60 : ℚ)) (by simp) (by simp)
    refine ⟨cfg, hc, ?_⟩
    rw [ht]
    have hmo : listMean (List.replicate 10 (150 : ℚ)) = 150 := by
      simp [listMean]
      norm_num
    have hmc : listMean (List.replicate 10 (60 : ℚ)) = 60 := by
      simp [listMean]
      norm_num
    rw [hmo, hmc]
    norm_num

/-- C5 witness: the general formula instantiated on ten open samples of
value 150 and ten closed samples of value 60, whose means 150 and 60 lie
in the 0 to 255 range. -/
theorem claim_C5_witness :
    ∃ cfg,
      calibrate_brightness_threshold (List.replicate 10 (150 : ℚ))
        (List.replicate 10 (60 : ℚ)) = .ok cfg ∧
      cfg.threshold =
        max 30 (min 200
          ⌊(listMean (List.replicate 10 (150 : ℚ)) +
            listMean (List.replicate 10 (60 : ℚ))) / 2 - 5⌋) := by
  have hmo : listMean (List.replicate 10 (150 : ℚ)) = 150 := by
    simp [listMean]
    norm_num
  have hmc : listMean (List.replicate 10 (60 : ℚ)) = 60 := by
    simp [listMean]
    norm_num
  exact claim_C5.1 (List.replicate 10 (150 : ℚ)) (List.replicate 10 (60 : ℚ))
    (by simp) (by simp)
    (by rw [hmo]; norm_num) (by rw [hmo]; norm_num)
    (by rw [hmc]; norm_num) (by rw [hmc]; norm_num)

/-- Geometry of every successful extraction: the returned buffer has exactly
the requested dimensions and the same channel count as the image, the
cropped pixels sit at offset (padTop, padLeft) inside it, and every other
in-bounds entry is zero. -/
theorem extract_ok_spec (img : Buffer) (c : ℚ × ℚ) (s : ℤ × ℤ) (r : Buffer)
    (hr : extract_eye_region img c s = .ok r) :
    r.height = s.2.toNat ∧ r.width = s.1.toNat ∧ r.channels = img.channels ∧
    ∀ i j ch,
      ((padTop img c s ≤ i ∧ i < padTop img c s + (cropY2 img c s - cropY1 img c s) ∧
        padLeft img c s ≤ j ∧ j < padLeft img c s + (cropX2 img c s - cropX1 img c s)) →
        r.pix i j ch =
          img.pix (cropY1 img c s + (i - padTop img c s))
                  (cropX1 img c s + (j - padLeft img c s)) ch) ∧
      (0 ≤ i → i < (s.2 : ℤ) → 0 ≤ j → j < (s.1 : ℤ) →
        ¬(padTop img c s ≤ i ∧ i < padTop img c s + (cropY2 img c s - cropY1 img c s) ∧
          padLeft img c s ≤ j ∧ j < padLeft img c s + (cropX2 img c s - cropX1 img c s)) →
        r.pix i j ch = 0) := by
  have e1 : cropX1 img c s = max 0 (eyeX c - s.1 / 2) := rfl
  have e2 : cropX2 img c s = min (img.width : ℤ) (eyeX c + s.1 / 2) := rfl
  have e3 : cropY1 img c s = max 0 (eyeY c - s.2 / 2) := rfl
  have e4 : cropY2 img c s = min (img.height : ℤ) (eyeY c + s.2 / 2) := rfl
  have e5 : padTop img c s = (s.2 - (cropY2 img c s - cropY1 img c s)) / 2 := rfl
  have e6 : padLeft img c s = (s.1 - (cropX2 img c s - cropX1 img c s)) / 2 := rfl
  simp only [extract_eye_region] at hr
  split at hr
  · cases hr
  · rename_i h1
    push_neg at h1
    obtain ⟨h1x, h1y⟩ := h1
    split at hr
    · rename_i hpad
      have hch : (((cropY2 img c s - cropY1 img c s).toNat : ℤ)) =
          cropY2 img c s - cropY1 img c s := by omega
      have hcw : (((cropX2 img c s - cropX1 img c s).toNat : ℤ)) =
          cropX2 img c s - cropX1 img c s := by omega
      have hpt : (s.2 - ((cropY2 img c s - cropY1 img c s).toNat : ℤ)) / 2 =
          padTop img c s := by rw [e5]; omega
      have hpl : (s.1 - ((cropX2 img c s - cropX1 img c s).toNat : ℤ)) / 2 =
          padLeft img c s := by rw [e6]; omega
      have hrr := (Except.ok.inj hr).symm
      subst hrr
      refine ⟨rfl, rfl, rfl, ?_⟩
      intro i j ch
      constructor
      · intro hwin
        simp only [hch, hcw, hpt, hpl]
        split
        · rfl
        · rename_i hcond
          exact absurd hwin hcond
      · intro _ _ _ _ hnwin
        simp only [hch, hcw, hpt, hpl]
        split
        · rename_i hcond
          exact absurd hcond hnwin
        · rfl
    · rename_i hnp
      push_neg at hnp
      obtain ⟨hnpy, hnpx⟩ := hnp
      have hy21 : cropY2 img c s - cropY1 img c s = s.2 := by
        rw [e3, e4] at *
        omega
      have hx21 : cropX2 img c s - cropX1 img c s = s.1 := by
        rw [e1, e2] at *
        omega
      have hpt0 : padTop img c s = 0 := by rw [e5, hy21]; omega
      have hpl0 : padLeft img c s = 0 := by rw [e6, hx21]; omega
      have hrr := (Except.ok.inj hr).symm
      subst hrr
      refine ⟨?_, ?_, rfl, ?_⟩
      · show (cropY2 img c s - cropY1 img c s).toNat = s.2.toNat
        omega
      · show (cropX2 img c s - cropX1 img c s).toNat = s.1.toNat
        omega
      intro i j ch
      constructor
      · intro _
        show img.pix (cropY1 img c s + i) (cropX1 img c s + j) ch = _
        rw [hpt0, hpl0]
        simp only [sub_zero]
      · intro hi0 his hj0 hjs hnwin
        exact absurd ⟨by omega, by omega, by omega, by omega⟩ hnwin

/-- Truncation of the rational 50 used by concrete extraction examples. -/
theorem truncQ_fifty : truncQ (50 : ℚ) = 50 := by
  unfold truncQ
  norm_num

/-- Truncation of the rational 0 used by concrete extraction examples. -/
theorem truncQ_zero : truncQ (0 : ℚ) = 0 := by
  unfold truncQ
  norm_num

/-- Truncation of the rational minus three used by concrete extraction
examples. -/
theorem truncQ_negThree : truncQ (-3 : ℚ) = -3 := by
  unfold truncQ
  norm_num

/-- C8: every successful extraction returns a buffer of exactly the requested
size, with the clamped crop placed at the centered offsets (padTop,
padLeft) and every other in-bounds entry zero; concretely, on a 100-by-100
image with region size (30, 20), centers inside the frame, at the frame
edge, and outside the frame bounds all produce a 20-by-30 buffer. -/
theorem claim_C8 :
    (∀ img c s r, extract_eye_region img c s = .ok r →
      r.height = s.2.toNat ∧ r.width = s.1.toNat ∧ r.channels = img.channels ∧
      ∀ i j ch,
        ((padTop img c s ≤ i ∧ i < padTop img c s + (cropY2 img c s - cropY1 img c s) ∧
          padLeft img c s ≤ j ∧ j < padLeft img c s + (cropX2 img c s - cropX1 img c s)) →
          r.pix i j ch =
            img.pix (cropY1 img c s + (i - padTop img c s))
                    (cropX1 img c s + (j - padLeft img c s)) ch) ∧
        (0 ≤ i → i < (s.2 : ℤ) → 0 ≤ j → j < (s.1 : ℤ) →
          ¬(padTop img c s ≤ i ∧ i < padTop img c s + (cropY2 img c s - cropY1 img c s) ∧
            padLeft img c s ≤ j ∧ j < padLeft img c s + (cropX2 img c s - cropX1 img c s)) →
          r.pix i j ch = 0)) ∧
    extractDims (extract_eye_region bigBuf (50, 50) (30, 20)) = some (20, 30) ∧
    extractDims (extract_eye_region bigBuf (0, 50) (30, 20)) = some (20, 30) ∧
    extractDims (extract_eye_region bigBuf (-3, 50) (30, 20)) = some (20, 30) := by
  refine ⟨extract_ok_spec, ?_, ?_, ?_⟩
  · have e1 : cropX1 bigBuf (50, 50) (30, 20) = 35 := by
      unfold cropX1 eyeX halfExtent
      rw [show ((50 : ℚ), (50 : ℚ)).1 = (50 : ℚ) from rfl, truncQ_fifty]
      decide
    have e2 : cropX2 bigBuf (50, 50) (30, 20) = 65 := by
      unfold cropX2 eyeX halfExtent
      rw [show ((50 : ℚ), (50 : ℚ)).1 = (50 : ℚ) from rfl, truncQ_fifty]
      decide
    have e3 : cropY1 bigBuf (50, 50) (30, 20) = 40 := by
      unfold cropY1 eyeY halfExtent
      rw [show ((50 : ℚ), (50 : ℚ)).2 = (50 : ℚ) from rfl, truncQ_fifty]
      decide
    have e4 : cropY2 bigBuf (50, 50) (30, 20) = 60 := by
      unfold cropY2 eyeY halfExtent
      rw [show ((50 : ℚ), (50 : ℚ)).2 = (50 : ℚ) from rfl, truncQ_fifty]
      decide
    simp only [extract_eye_region, e1, e2, e3, e4]
    rfl
  · have e1 : cropX1 bigBuf (0, 50) (30, 20) = 0 := by
      unfold cropX1 eyeX halfExtent
      rw [show ((0 : ℚ), (50 : ℚ)).1 = (0 : ℚ) from rfl, truncQ_zero]
      decide
    have e2 : cropX2 bigBuf (0, 50) (30, 20) = 15 := by
      unfold cropX2 eyeX halfExtent
      rw [show ((0 : ℚ), (50 : ℚ)).1 = (0 : ℚ) from rfl, truncQ_zero]
      decide
    have e3 : cropY1 bigBuf (0, 50) (30, 20) = 40 := by
      unfold cropY1 eyeY halfExtent
      rw [show ((0 : ℚ), (50 : ℚ)).2 = (50 : ℚ) from rfl, truncQ_fifty]
      decide
    have e4 : cropY2 bigBuf (0, 50) (30, 20) = 60 := by
      unfold cropY2 eyeY halfExtent
      rw [show ((0 : ℚ), (50 : ℚ)).2 = (50 : ℚ) from rfl, truncQ_fifty]
      decide
    simp only [extract_eye_region, e1, e2, e3, e4]
    rfl
  · have e1 : cropX1 bigBuf (-3, 50) (30, 20) = 0 := by
      unfold cropX1 eyeX halfExtent
      rw [show ((-3 : ℚ), (50 : ℚ)).1 = (-3 : ℚ) from rfl, truncQ_negThree]
      decide
    have e2 : cropX2 bigBuf (-3, 50) (30, 20) = 12 := by
      unfold cropX2 eyeX halfExtent
      rw [show ((-3 : ℚ), (50 : ℚ)).1 = (-3 : ℚ) from rfl, truncQ_negThree]
      decide
    have e3 : cropY1 bigBuf (-3, 50) (30, 20) = 40 := by
      unfold cropY1 eyeY halfExtent
      rw [show ((-3 : ℚ), (50 : ℚ)).2 = (50 : ℚ) from rfl, truncQ_fifty]
      decide
    have e4 : cropY2 bigBuf (-3, 50) (30, 20) = 60 := by
      unfold cropY2 eyeY halfExtent
      rw [show ((-3 : ℚ), (50 : ℚ)).2 = (50 : ℚ) from rfl, truncQ_fifty]
      decide
    simp only [extract_eye_region, e1, e2, e3, e4]
    rfl

/-- C8 witness: the universal part instantiated on the concrete interior
extraction, whose result buffer is extractedBig; its dimensions are
exactly the requested (20, 30). -/
theorem claim_C8_witness :
    extractedBig.height = (20 : ℤ).toNat ∧ extractedBig.width = (30 : ℤ).toNat := by
  have e1 : cropX1 bigBuf (50, 50) (30, 20) = 35 := by
    unfold cropX1 eyeX halfExtent
    rw [show ((50 : ℚ), (50 : ℚ)).1 = (50 : ℚ) from rfl, truncQ_fifty]
    decide
  have e2 : cropX2 bigBuf (50, 50) (30, 20) = 65 := by
    unfold cropX2 eyeX halfExtent
    rw [show ((50 : ℚ), (50 : ℚ)).1 = (50 : ℚ) from rfl, truncQ_fifty]
    decide
  have e3 : cropY1 bigBuf (50, 50) (30, 20) = 40 := by
    unfold cropY1 eyeY halfExtent
    rw [show ((50 : ℚ), (50 : ℚ)).2 = (50 : ℚ) from rfl, truncQ_fifty]
    decide
  have e4 : cropY2 bigBuf (50, 50) (30, 20) = 60 := by
    unfold cropY2 eyeY halfExtent
    rw [show ((50 : ℚ), (50 : ℚ)).2 = (50 : ℚ) from rfl, truncQ_fifty]
    decide
  have hr : extract_eye_region bigBuf (50, 50) (30, 20) = .ok extractedBig := by
    simp only [extract_eye_region, e1, e2, e3, e4]
    rfl
  have h := claim_C8.1 bigBuf (50, 50) (30, 20) extractedBig hr
  exact ⟨h.1, h.2.1⟩

/-- C9 counterexample: calling extract_eye_region with the non-positive size
(0, 5) on a concrete 10-by-10 image and in-frame center (5, 5) fails with
the invalid-eye-region error, not with the invalid-parameter error the
claim asserts. -/
theorem claim_C9_counterexample :
    extract_eye_region grayBuf (5, 5) (0, 5) = .error .invalidRegion ∧
    Err.invalidRegion ≠ Err.invalidParameter := by
  constructor
  · have tq5 : truncQ (5 : ℚ) = 5 := by
      unfold truncQ
      norm_num
    have hx : cropX2 grayBuf (5, 5) (0, 5) ≤ cropX1 grayBuf (5, 5) (0, 5) := by
      unfold cropX1 cropX2 eyeX halfExtent
      rw [show ((5 : ℚ), (5 : ℚ)).1 = (5 : ℚ) from rfl, tq5]
      decide
    simp only [extract_eye_region]
    rw [if_pos (Or.inl hx)]
  · decide

/-- C9 as amended: extract_eye_region does not validate the size eagerly; for
every frame and center, a size whose width or height component is at most 0
makes the clamped crop box degenerate, so the call fails with the
invalid-region error rather than the invalid-parameter one; the eager
invalid-parameter rejection of non-positive sizes is performed by
set_eye_region_size (and the constructor), and the invalid-region error is
likewise what extraction raises whenever the clamped crop box has zero or
negative extent. -/
theorem claim_C9 :
    (∀ img c s, s.1 ≤ 0 ∨ s.2 ≤ 0 →
      extract_eye_region img c s = .error .invalidRegion) ∧
    (∀ s : ℤ × ℤ, s.1 ≤ 0 ∨ s.2 ≤ 0 →
      set_eye_region_size s = .error .invalidParameter) ∧
    (∀ img c s,
      (cropX2 img c s ≤ cropX1 img c s ∨ cropY2 img c s ≤ cropY1 img c s) →
      extract_eye_region img c s = .error .invalidRegion) := by
  refine ⟨?_, ?_, ?_⟩
  · intro img c s hs
    have hdeg : cropX2 img c s ≤ cropX1 img c s ∨ cropY2 img c s ≤ cropY1 img c s := by
      have e1 : cropX1 img c s = max 0 (eyeX c - s.1 / 2) := rfl
      have e2 : cropX2 img c s = min (img.width : ℤ) (eyeX c + s.1 / 2) := rfl
      have e3 : cropY1 img c s = max 0 (eyeY c - s.2 / 2) := rfl
      have e4 : cropY2 img c s = min (img.height : ℤ) (eyeY c + s.2 / 2) := rfl
      rcases hs with hs | hs
      · exact Or.inl (by omega)
      · exact Or.inr (by omega)
    simp only [extract_eye_region]
    rw [if_pos hdeg]
  · intro s hs
    simp [set_eye_region_size, hs]
  · intro img c s hdeg
    simp only [extract_eye_region]
    rw [if_pos hdeg]

/-- C9 witness: the amended claim instantiated on concrete inputs: size
(5, 0) makes extraction fail with the invalid-region error, the setter
rejects size (0, 5) with the invalid-parameter error, and a positive size
(30, 20) with a center far outside a 10-by-10 frame also fails with the
invalid-region error. -/
theorem claim_C9_witness :
    extract_eye_region grayBuf (5, 5) (5, 0) = .error .invalidRegion ∧
    set_eye_region_size (0, 5) = .error .invalidParameter ∧
    extract_eye_region grayBuf (1000, 1000) (30, 20) = .error .invalidRegion := by
  have tq1000 : truncQ (1000 : ℚ) = 1000 := by
    unfold truncQ
    norm_num
  have hx : cropX2 grayBuf (1000, 1000) (30, 20) ≤ cropX1 grayBuf (1000, 1000) (30, 20) := by
    unfold cropX1 cropX2 eyeX halfExtent
    rw [show ((1000 : ℚ), (1000 : ℚ)).1 = (1000 : ℚ) from rfl, tq1000]
    decide
  exact ⟨claim_C9.1 grayBuf (5, 5) (5, 0) (Or.inr (by decide)),
    claim_C9.2.1 (0, 5) (Or.inl (by decide)),
    claim_C9.2.2 grayBuf (1000, 1000) (30, 20) (Or.inl hx)⟩

end VerySimpleAlarm
